import Mathlib

/-!
Shallow embedding of the Lonie video-generation engine (`src/index.js`):
manifest normalization (`transformManifest`), the `/generate-video`
submission handler, the background orchestration (audio synthesis loop,
render, upload, cleanup) and the progress updates written to the job store.

JS numbers are modelled as `ℚ`, absent/null values as `Option`, JS `||`
defaulting by explicit truthiness helpers, and code that can throw as
`Except Unit`.  External collaborators (speech synthesizer, object store,
render engine) are modelled by outcome parameters supplied to the
orchestration; storage/database calls that report errors in-band are
modelled as non-throwing.
-/

namespace Lonie

/-- JS `x || d` for an optional number: `0`, `null` and `undefined` are falsy. -/
def jsOrQ (o : Option ℚ) (d : ℚ) : ℚ :=
  match o with
  | some x => if x = 0 then d else x
  | none => d

/-- JS `s || d` for an optional string: `""`, `null` and `undefined` are falsy. -/
def jsOrStr (o : Option String) (d : String) : String :=
  match o with
  | some s => if s = "" then d else s
  | none => d

/-- JS truthiness of an optional string value (non-empty string). -/
def jsTruthyStr (o : Option String) : Bool :=
  match o with
  | some s => decide (s ≠ "")
  | none => false

/-- JS `Math.round` on a non-negative number: `⌊x + 1/2⌋`. -/
def jsRound (q : ℚ) : ℤ := ⌊q + 1 / 2⌋

/-! ## Raw (loosely-typed) manifest input, `src/index.js` lines 46-87 -/

/-- A component's `rationale` field: absent, a string, or an array of strings. -/
inductive RationaleVal
  | absent
  | str (s : String)
  | arr (ss : List String)
deriving DecidableEq, Repr

/-- A visual component descriptor; only `type` and `rationale` are inspected. -/
structure Component where
  type : String
  rationale : RationaleVal
deriving DecidableEq, Repr

/-- The raw `scene.narration` value: absent, `null`, a bare string,
or an object with optional `text` and `audioUrl`. -/
inductive RawNarration
  | absent
  | nullv
  | str (s : String)
  | obj (text : Option String) (audioUrl : Option String)
deriving DecidableEq, Repr

/-- The raw `scene.visuals` object. -/
structure RawVisuals where
  layout : Option String
  components : Option (List Component)
deriving DecidableEq, Repr

/-- A raw scene as received from the AI manifest. -/
structure RawScene where
  id : Option String
  start : Option ℚ
  start_time : Option ℚ
  duration : Option ℚ
  narration : RawNarration
  components : Option (List Component)
  visuals : Option RawVisuals
deriving DecidableEq, Repr

/-- The raw/normalized `meta` object; all fields optional (`transformManifest`
passes a supplied meta object through unchanged). -/
structure RawMeta where
  loan_id : Option String
  version : Option String
  theme : Option String
  resolution : Option String
  fps : Option ℚ
deriving DecidableEq, Repr

/-- A raw manifest: optional `meta` and optional `scenes` array. -/
structure RawManifest where
  meta : Option RawMeta
  scenes : Option (List RawScene)
deriving DecidableEq, Repr

/-! ## Normalized manifest, the output of `transformManifest` -/

/-- Normalized narration: `text` is always a string, `audioUrl` optional. -/
structure NarrationSegment where
  text : String
  audioUrl : Option String
deriving DecidableEq, Repr

/-- A normalized scene. -/
structure Scene where
  id : String
  start : ℚ
  duration : ℚ
  narration : NarrationSegment
  layout : String
  components : List Component
deriving DecidableEq, Repr

/-- A normalized manifest. -/
structure Manifest where
  meta : RawMeta
  scenes : List Scene
deriving DecidableEq, Repr

/-- The default meta object used when `aiManifest.meta` is absent (lines 52-58). -/
def defaultMeta : RawMeta :=
  { loan_id := some "unknown"
    version := some "1.0"
    theme := some "institutional-dark"
    resolution := some "1920x1080"
    fps := some 30 }

/-- Models `scene.components || scene.visuals?.components || []` (line 60).
Arrays are truthy in JS even when empty, so a present array is taken as-is. -/
def rawComponentsOf (s : RawScene) : List Component :=
  match s.components with
  | some cs => cs
  | none =>
    match s.visuals with
    | some v => v.components.getD []
    | none => []

/-- Flattening of a `recommendation` component whose rationale is an array
(lines 62-68): join with `". "`. -/
def transformComponent (c : Component) : Component :=
  if c.type = "recommendation" then
    match c.rationale with
    | .arr ss => { c with rationale := .str (String.intercalate ". " ss) }
    | _ => c
  else c

/-- Normalization of the raw narration field (lines 74-79).
`text` is the bare string, or `scene.narration?.text || ''`.
`audioUrl` is `scene.narration.audioUrl` when `typeof scene.narration === 'object'`
— and `typeof null === 'object'`, so a `null` narration throws a `TypeError`
when `audioUrl` is read from it (no optional chaining on that line). -/
def normalizeNarration : RawNarration → Except Unit NarrationSegment
  | .str s => .ok { text := s, audioUrl := none }
  | .nullv => .error ()
  | .absent => .ok { text := "", audioUrl := none }
  | .obj t a => .ok { text := jsOrStr t "", audioUrl := a }

/-- Normalization of one raw scene at index `idx` (lines 70-84). -/
def transformScene (idx : ℕ) (s : RawScene) : Except Unit Scene :=
  match normalizeNarration s.narration with
  | .error e => .error e
  | .ok n =>
    .ok { id := jsOrStr s.id ("scene_" ++ toString idx)
          start := jsOrQ s.start (jsOrQ s.start_time 0)
          duration := jsOrQ s.duration 10
          narration := n
          layout := jsOrStr (s.visuals.bind RawVisuals.layout) "centered"
          components := (rawComponentsOf s).map transformComponent }

/-- Maps `transformScene` over the raw scenes with their indices; the first
throwing scene aborts the whole map. -/
def transformScenes (idx : ℕ) : List RawScene → Except Unit (List Scene)
  | [] => .ok []
  | s :: rest =>
    match transformScene idx s with
    | .error e => .error e
    | .ok t =>
      match transformScenes (idx + 1) rest with
      | .error e => .error e
      | .ok ts => .ok (t :: ts)

/-- Models `transformManifest` (lines 46-87): `null` input maps to `null`; otherwise
`meta` is `aiManifest.meta || {defaults}` (whole-object fallback) and the
scenes are normalized in order. -/
def transformManifest : Option RawManifest → Except Unit (Option Manifest)
  | none => .ok none
  | some m =>
    match transformScenes 0 (m.scenes.getD []) with
    | .error e => .error e
    | .ok ts => .ok (some { meta := m.meta.getD defaultMeta, scenes := ts })

/-! ## The `/generate-video` submission handler, lines 89-107 -/

/-- Outcome of the synchronous part of the handler: a 400 response, a thrown
exception, or acceptance (job id generated, background render started). -/
inductive HandlerResult
  | badRequest (msg : String)
  | thrown
  | accepted (m : Manifest)
deriving DecidableEq, Repr

/-- The synchronous validation of a submission (lines 92-106): missing
manifest → 400; normalization throwing propagates; empty normalized
manifest → 400; otherwise a job id is generated and work begins. -/
def handleGenerateVideo (mo : Option RawManifest) : HandlerResult :=
  match mo with
  | none => .badRequest "Missing manifest"
  | some m =>
    match transformManifest (some m) with
    | .error _ => .thrown
    | .ok none => .badRequest "Invalid or empty manifest"
    | .ok (some t) =>
      if t.scenes.length = 0 then .badRequest "Invalid or empty manifest"
      else .accepted t

/-- Whether a job id was generated (and background work started). -/
def jobCreated : HandlerResult → Bool
  | .accepted _ => true
  | _ => false

/-! ## Render planning, lines 128-130 -/

/-- Models `transformedManifest.meta.fps || 30` (line 128). -/
def renderFps (m : Manifest) : ℚ := jsOrQ m.meta.fps 30

/-- Models `scenes.reduce((acc, s) => acc + s.duration, 0)` (line 129). -/
def totalDurationInSeconds (m : Manifest) : ℚ :=
  m.scenes.foldl (fun acc s => acc + s.duration) 0

/-- Models `Math.max(1, Math.floor(totalDurationInSeconds * fps))` (line 130). -/
def durationInFrames (m : Manifest) : ℤ :=
  max 1 ⌊totalDurationInSeconds m * renderFps m⌋

/-! ## Background orchestration, lines 109-369

External collaborator behavior is supplied as an `Env` of outcomes; the
orchestration itself (control flow, resource tracking, cleanup) follows the
code.  Resource state tracks the job's local files, remote objects, the two
tracking lists `audioFiles` / `supabaseAudioPaths`, and how many times the
speech synthesizer was invoked. -/

/-- Outcome of one scene's synthesis attempt, covering the failure points of
lines 172-206: the speak request throws; `getStream()` returns null (silently
skipped, no file); writing the stream throws after the file was created;
the object-store upload fails (thrown at line 191, file already on disk);
or full success with the resulting public URL. -/
inductive SynthOutcome
  | requestThrows
  | noStream
  | streamWriteThrows
  | uploadFails
  | ok (url : String)
deriving DecidableEq, Repr

/-- Whether the outcome is one of the failure modes (non-`ok`). -/
def isSynthFailure : SynthOutcome → Bool
  | .ok _ => false
  | _ => true

/-- Outcome of the finished-video upload (lines 270-289): success with a
public URL, an in-band upload error, or a thrown exception. -/
inductive UploadOutcome
  | okUrl (u : String)
  | errReturned
  | throws
deriving DecidableEq, Repr

/-- Job-scoped resources: whether the rendered video exists locally, the
local audio files and remote audio objects that exist, the tracking lists
`audioFiles` and `supabaseAudioPaths`, and the synthesizer invocation count. -/
structure ResState where
  localVideo : Bool
  localAudio : List String
  remoteAudio : List String
  trackedAudio : List String
  trackedRemote : List String
  synthCalls : ℕ
deriving DecidableEq, Repr

/-- The state at the start of the background task (line 110-111). -/
def ResState.start : ResState :=
  { localVideo := false, localAudio := [], remoteAudio := []
    trackedAudio := [], trackedRemote := [], synthCalls := 0 }

/-- Models the file name `` videoId_scene_i.mp3 `` of line 169. -/
def audioFileName (jobId : String) (i : ℕ) : String :=
  jobId ++ "_scene_" ++ toString i ++ ".mp3"

/-- The synthesis guard of line 166:
`scene.narration && scene.narration.text && !scene.narration.audioUrl`
(narration is always an object after normalization; `text` truthy means
non-empty; `audioUrl` falsy means absent or empty). -/
def guardSynth (sc : Scene) : Bool :=
  decide (sc.narration.text ≠ "") && !jsTruthyStr sc.narration.audioUrl

/-- One iteration of the per-scene loop body (lines 166-207), resource part.
On success the local file and remote object both exist and both are tracked
(pushes at lines 199-200).  When the upload fails or the stream write throws,
the local file exists but is NOT tracked — the pushes only happen after a
successful upload.  The per-scene `catch` absorbs every failure. -/
def sceneStep (jobId : String) (i : ℕ) (sc : Scene) (out : SynthOutcome)
    (st : ResState) : Scene × ResState :=
  if guardSynth sc then
    let fname := audioFileName jobId i
    let st1 := { st with synthCalls := st.synthCalls + 1 }
    match out with
    | .requestThrows => (sc, st1)
    | .noStream => (sc, st1)
    | .streamWriteThrows => (sc, { st1 with localAudio := st1.localAudio ++ [fname] })
    | .uploadFails => (sc, { st1 with localAudio := st1.localAudio ++ [fname] })
    | .ok url =>
      ({ sc with narration := { sc.narration with audioUrl := some url } },
        { st1 with
          localAudio := st1.localAudio ++ [fname]
          remoteAudio := st1.remoteAudio ++ [fname]
          trackedAudio := st1.trackedAudio ++ [fname]
          trackedRemote := st1.trackedRemote ++ [fname] })
  else (sc, st)

/-- The sequential per-scene loop (lines 154-208), threading resource state. -/
def runScenes (jobId : String) (synth : ℕ → SynthOutcome) :
    ℕ → List Scene → ResState → List Scene × ResState
  | _, [], st => ([], st)
  | i, sc :: rest, st =>
    let p := sceneStep jobId i sc (synth i) st
    let q := runScenes jobId synth (i + 1) rest p.2
    (p.1 :: q.1, q.2)

/-- Collaborator behavior for one job. -/
structure Env where
  manifestIdPresent : Bool
  externalUrl : Option String
  bundleOk : Bool
  synth : ℕ → SynthOutcome
  renderOk : Bool
  upload : UploadOutcome

/-- Models `process.env.RENDER_EXTERNAL_URL || http://localhost:3001` (line 264). -/
def publicHost (env : Env) : String :=
  jsOrStr env.externalUrl "http://localhost:3001"

/-- The locally-served fallback `` `${publicHost}/videos/${videoId}.mp4` ``
(line 267). -/
def fallbackVideoUrl (env : Env) (jobId : String) : String :=
  publicHost env ++ "/videos/" ++ jobId ++ ".mp4"

/-- The `finally` block (lines 331-368): delete the local video if present,
unlink each tracked local audio file, and batch-remove the tracked remote
audio objects.  Untracked files survive. -/
def cleanup (st : ResState) : ResState :=
  { st with
    localVideo := false
    localAudio := st.localAudio.filter (fun f => !st.trackedAudio.contains f)
    remoteAudio := st.remoteAudio.filter (fun f => !st.trackedRemote.contains f) }

/-- Observable result of one background orchestration. -/
structure JobResult where
  status : String
  videoUrl : Option String
  renderCalled : Bool
  scenes : List Scene
  finalState : ResState
deriving Repr

/-- The background orchestration (lines 109-369): bundle, per-scene audio
loop, render, video upload with local-URL fallback, terminal status write,
and the cleanup scope on every exit path.  A bundle or render failure is
caught at line 325 and writes status `failed`; upload failures (in-band or
thrown) keep the fallback URL and the job completes. -/
def orchestrate (jobId : String) (m : Manifest) (env : Env) : JobResult :=
  if env.bundleOk then
    let r := runScenes jobId env.synth 0 m.scenes ResState.start
    if env.renderOk then
      let st2 := { r.2 with localVideo := true }
      let videoUrl :=
        match env.upload with
        | .okUrl u => u
        | .errReturned => fallbackVideoUrl env jobId
        | .throws => fallbackVideoUrl env jobId
      { status := "completed", videoUrl := some videoUrl, renderCalled := true
        scenes := r.1, finalState := cleanup st2 }
    else
      { status := "failed", videoUrl := none, renderCalled := true
        scenes := r.1, finalState := cleanup r.2 }
  else
    { status := "failed", videoUrl := none, renderCalled := false
      scenes := m.scenes, finalState := cleanup ResState.start }

/-! ## Progress updates written to the job store

The success-path sequence of `progress` values (lines 135-302): the initial
upsert with 5 (only when a `manifest_id` was supplied), the per-scene audio
updates `Math.round((i / totalScenes) * 25) + 5`, the throttled render
updates `30 + Math.round(progress * 60)`, then 95 and the final 100. -/

/-- Per-scene audio progress (line 158). -/
def audioProgress (i n : ℕ) : ℤ := jsRound ((i : ℚ) / (n : ℚ) * 25) + 5

/-- Render-callback progress (line 239). -/
def renderProgress (p : ℚ) : ℤ := 30 + jsRound (p * 60)

/-- The sequence of progress values written for a job with `n` scenes whose
render callback wrote the fractions `fracs` (the throttle only drops some
callbacks, so `fracs` is the sub-sequence that got written). -/
def progressTrace (manifestIdPresent : Bool) (n : ℕ) (fracs : List ℚ) : List ℤ :=
  (if manifestIdPresent then [5] else [])
    ++ (List.range n).map (fun i => audioProgress i n)
    ++ fracs.map renderProgress
    ++ [95, 100]

/-! ## Concrete inputs used by claim witnesses and counterexamples,
and the derived per-scene result used in the loop lemmas -/

/-- A two-scene manifest with durations 5 s and 7 s at 30 fps. -/
def exampleScene (nm : String) (d : ℚ) : Scene :=
  { id := nm, start := 0, duration := d
    narration := { text := "", audioUrl := none }
    layout := "centered", components := [] }

def exampleMeta : RawMeta :=
  { loan_id := none, version := none, theme := none, resolution := none
    fps := some 30 }

def exampleManifest : Manifest :=
  { meta := exampleMeta, scenes := [exampleScene "a" 5, exampleScene "b" 7] }

def c6Manifest : RawManifest := { meta := none, scenes := some [] }

def c10Scene : RawScene :=
  { id := none, start := none, start_time := none, duration := some 5
    narration := .nullv, components := none, visuals := none }

def c10Manifest : RawManifest := { meta := none, scenes := some [c10Scene] }

def c7Scene : Scene :=
  { id := "s0", start := 0, duration := 10
    narration := { text := "Hello", audioUrl := some "https://cdn.example/a.mp3" }
    layout := "centered", components := [] }

def c8Scene : RawScene :=
  { id := none, start := none, start_time := none, duration := some (-5)
    narration := .absent, components := none, visuals := none }

def c8DefScene : RawScene :=
  { id := none, start := none, start_time := none, duration := none
    narration := .absent, components := none, visuals := none }

def c8DefRes : Scene :=
  { id := "scene_0", start := 0, duration := 10
    narration := { text := "", audioUrl := none }
    layout := "centered", components := [] }

def c9Meta : RawMeta :=
  { loan_id := none, version := none, theme := none, resolution := none
    fps := some 60 }

def c9Scene : RawScene :=
  { id := none, start := none, start_time := none, duration := some 5
    narration := .str "Hi", components := none, visuals := none }

def c9Manifest : RawManifest := { meta := some c9Meta, scenes := some [c9Scene] }

def c5Manifest : Manifest := { meta := defaultMeta, scenes := [] }

def c5Env : Env :=
  { manifestIdPresent := false, externalUrl := some "https://host.example"
    bundleOk := true, synth := fun _ => .ok "u", renderOk := true
    upload := .errReturned }

def c1Scene : Scene :=
  { id := "scene_0", start := 0, duration := 10
    narration := { text := "Hello there", audioUrl := none }
    layout := "centered", components := [] }

def c1Manifest : Manifest := { meta := defaultMeta, scenes := [c1Scene] }

def c1Env : Env :=
  { manifestIdPresent := true, externalUrl := none, bundleOk := true
    synth := fun _ => .uploadFails, renderOk := true
    upload := .okUrl "https://store.example/videos/job1.mp4" }

/-- The scene component of one loop iteration: on a successful synthesis the
scene receives the public audio URL, on any failure (or when the guard skips
it) the scene is unchanged. -/
def sceneResult (sc : Scene) (out : SynthOutcome) : Scene :=
  if guardSynth sc then
    match out with
    | .ok url => { sc with narration := { sc.narration with audioUrl := some url } }
    | _ => sc
  else sc

def c3SceneA : Scene :=
  { id := "scene_0", start := 0, duration := 5
    narration := { text := "First line", audioUrl := none }
    layout := "centered", components := [] }

def c3SceneB : Scene :=
  { id := "scene_1", start := 0, duration := 7
    narration := { text := "Second line", audioUrl := none }
    layout := "centered", components := [] }

def c3Manifest : Manifest := { meta := defaultMeta, scenes := [c3SceneA, c3SceneB] }

def c3Env : Env :=
  { manifestIdPresent := true, externalUrl := none, bundleOk := true
    synth := fun i => if i = 0 then .requestThrows else .ok "https://cdn.example/s1.mp3"
    renderOk := true, upload := .okUrl "https://store.example/v.mp4" }

/-! ## Helper lemmas -/

lemma foldl_add_duration (l : List Scene) (a : ℚ) :
    l.foldl (fun acc s => acc + s.duration) a = a + (l.map Scene.duration).sum := by
  induction l generalizing a with
  | nil => simp
  | cons s t ih => simp [ih, add_assoc]

lemma transformScenes_error_of_null (l : List RawScene) :
    ∀ idx, (∃ sc ∈ l, sc.narration = RawNarration.nullv) →
      transformScenes idx l = .error () := by
  induction l with
  | nil =>
    intro idx h
    simp at h
  | cons s rest ih =>
    intro idx h
    rcases h with ⟨sc, hmem, hnull⟩
    rcases List.mem_cons.mp hmem with rfl | hmem'
    · simp [transformScenes, transformScene, hnull, normalizeNarration]
    · cases hts : transformScene idx s with
      | error e =>
        cases e
        simp [transformScenes, hts]
      | ok t =>
        simp [transformScenes, hts, ih (idx + 1) ⟨sc, hmem', hnull⟩]

/-! ## Claim theorems -/

/-- C4: for every normalized manifest the computed frame count is
`max(1, floor((d_1 + ... + d_N) * F))`, and the 5 s + 7 s at 30 fps example
yields 360 frames. -/
theorem C4_durationInFrames_spec :
    (∀ m : Manifest,
      durationInFrames m = max 1 ⌊(m.scenes.map Scene.duration).sum * renderFps m⌋)
    ∧ durationInFrames exampleManifest = 360 := by
  constructor
  · intro m
    rw [durationInFrames, totalDurationInSeconds, foldl_add_duration, zero_add]
  · norm_num [durationInFrames, totalDurationInSeconds, renderFps, exampleManifest,
      exampleScene, exampleMeta, jsOrQ]

/-- C6: a missing manifest, or one that normalizes to zero scenes, is rejected
synchronously with a 400 validation response; no job id is generated and no
background work starts. -/
theorem C6_empty_manifest_rejected (mo : Option RawManifest)
    (h : mo = none ∨ ∃ m t, mo = some m ∧
      transformManifest (some m) = .ok (some t) ∧ t.scenes = []) :
    (∃ s, handleGenerateVideo mo = .badRequest s)
    ∧ jobCreated (handleGenerateVideo mo) = false := by
  rcases h with rfl | ⟨m, t, rfl, ht, hts⟩
  · exact ⟨⟨"Missing manifest", rfl⟩, rfl⟩
  · have hh : handleGenerateVideo (some m) = .badRequest "Invalid or empty manifest" := by
      simp [handleGenerateVideo, ht, hts]
    exact ⟨⟨_, hh⟩, by rw [hh]; rfl⟩

theorem C6_witness :
    (∃ s, handleGenerateVideo (some c6Manifest) = .badRequest s)
    ∧ jobCreated (handleGenerateVideo (some c6Manifest)) = false :=
  C6_empty_manifest_rejected (some c6Manifest)
    (Or.inr ⟨c6Manifest, { meta := defaultMeta, scenes := [] }, rfl, rfl, rfl⟩)

/-- C10: normalization is not total — a raw scene whose `narration` is `null`
makes `transformManifest` throw (`typeof null === 'object'`, and
`scene.narration.audioUrl` is read without a guard), and since this runs
synchronously in the handler, the submission fails before a job id is
generated. -/
theorem C10_null_narration_throws (m : RawManifest)
    (h : ∃ sc ∈ m.scenes.getD [], sc.narration = RawNarration.nullv) :
    transformManifest (some m) = .error ()
    ∧ handleGenerateVideo (some m) = .thrown := by
  have he := transformScenes_error_of_null (m.scenes.getD []) 0 h
  constructor
  · simp [transformManifest, he]
  · simp [handleGenerateVideo, transformManifest, he]

theorem C10_witness :
    transformManifest (some c10Manifest) = .error ()
    ∧ handleGenerateVideo (some c10Manifest) = .thrown :=
  C10_null_narration_throws c10Manifest ⟨c10Scene, by simp [c10Manifest], rfl⟩

lemma guardSynth_eq_true (sc : Scene) :
    guardSynth sc = true ↔
      (sc.narration.text ≠ "" ∧ ∀ u, sc.narration.audioUrl = some u → u = "") := by
  unfold guardSynth jsTruthyStr
  cases h : sc.narration.audioUrl with
  | none => simp [h]
  | some u => simp [h]

/-- C7: a scene whose narration already has a non-empty `audioUrl`, or whose
text is empty, is never sent to the speech synthesizer and the loop body
leaves the scene and the resource state untouched (no file created, nothing
uploaded); the synthesizer is invoked exactly when the text is non-empty and
no non-empty `audioUrl` is present. -/
theorem C7_synthesis_guard (jobId : String) (i : ℕ) (sc : Scene)
    (out : SynthOutcome) (st : ResState) :
    (((∃ u, sc.narration.audioUrl = some u ∧ u ≠ "") ∨ sc.narration.text = "") →
      sceneStep jobId i sc out st = (sc, st))
    ∧ ((sceneStep jobId i sc out st).2.synthCalls = st.synthCalls + 1 ↔
      (sc.narration.text ≠ "" ∧ ∀ u, sc.narration.audioUrl = some u → u = "")) := by
  cases hg : guardSynth sc with
  | false =>
    have hstep : sceneStep jobId i sc out st = (sc, st) := by
      simp [sceneStep, hg]
    refine ⟨fun _ => hstep, ?_⟩
    rw [hstep]
    simp only [← guardSynth_eq_true, hg]
    exact iff_of_false (by omega) (by simp)
  | true =>
    constructor
    · intro h
      exfalso
      have hc := (guardSynth_eq_true sc).mp hg
      rcases h with ⟨u, hu, hne⟩ | htext
      · exact hne (hc.2 u hu)
      · exact hc.1 htext
    · rw [← guardSynth_eq_true, hg]
      cases out <;> simp [sceneStep, hg]

theorem C7_witness :
    sceneStep "job" 0 c7Scene .requestThrows ResState.start = (c7Scene, ResState.start) :=
  (C7_synthesis_guard "job" 0 c7Scene .requestThrows ResState.start).1
    (Or.inl ⟨"https://cdn.example/a.mp3", rfl, by decide⟩)

/-- C8 counterexample: a raw scene carrying `duration: -5` normalizes to a
scene with duration `-5` (JS `||` only replaces falsy values, and `-5` is
truthy), so the normalized duration is negative, refuting "never negative". -/
theorem C8_counterexample :
    (transformScene 0 c8Scene).toOption.map Scene.duration = some (-5)
    ∧ ((-5 : ℚ) < 0) := by
  constructor
  · decide
  · norm_num

/-- C8 amended: an absent or zero raw duration is replaced by the default 10;
any other supplied duration — including a negative one — is kept unchanged,
so the normalized duration is not guaranteed to be positive. -/
theorem C8_amended (idx : ℕ) (s : RawScene) (res : Scene)
    (h : transformScene idx s = .ok res) :
    ((s.duration = none ∨ s.duration = some 0) → res.duration = 10)
    ∧ (∀ d, s.duration = some d → d ≠ 0 → res.duration = d) := by
  have hd : res.duration = jsOrQ s.duration 10 := by
    unfold transformScene at h
    cases hn : normalizeNarration s.narration with
    | error e =>
      rw [hn] at h
      cases h
    | ok n =>
      rw [hn] at h
      simp only [Except.ok.injEq] at h
      rw [← h]
  constructor
  · rintro (h0 | h0) <;> simp [hd, jsOrQ, h0]
  · intro d hdd hne
    simp [hd, jsOrQ, hdd, hne]

theorem C8_amended_witness : c8DefRes.duration = 10 :=
  (C8_amended 0 c8DefScene c8DefRes rfl).1 (Or.inl rfl)

/-- C9 counterexample: a manifest that supplies a `meta` object with only
`fps: 60` normalizes with `version` still absent — `aiManifest.meta || {...}`
is a whole-object fallback, so defaults are not applied per-field. -/
theorem C9_counterexample :
    (transformManifest (some c9Manifest)).toOption.join.map (fun t => t.meta.version)
      = some none
    ∧ (transformManifest (some c9Manifest)).toOption.join.map (fun t => t.meta.fps)
      = some (some 60) := by
  constructor <;> decide

/-- C9 amended: a manifest whose `meta` is wholly absent receives the full
default meta object (version "1.0", theme "institutional-dark", resolution
"1920x1080", fps 30); a supplied `meta` object is passed through unchanged,
so fields it omits stay absent in the normalized output — except `fps`,
which independently falls back to 30 at render planning. -/
theorem C9_amended :
    (∀ (m : RawManifest) (t : Manifest), m.meta = none →
      transformManifest (some m) = .ok (some t) → t.meta = defaultMeta)
    ∧ (∀ (m : RawManifest) (rm : RawMeta) (t : Manifest), m.meta = some rm →
      transformManifest (some m) = .ok (some t) → t.meta = rm)
    ∧ (∀ t : Manifest, t.meta.fps = none → renderFps t = 30) := by
  refine ⟨?_, ?_, ?_⟩
  · intro m t hm ht
    cases hts : transformScenes 0 (m.scenes.getD []) with
    | error e => simp [transformManifest, hts] at ht
    | ok ts =>
      simp only [transformManifest, hts, Except.ok.injEq, Option.some.injEq] at ht
      rw [← ht, hm]
      rfl
  · intro m rm t hm ht
    cases hts : transformScenes 0 (m.scenes.getD []) with
    | error e => simp [transformManifest, hts] at ht
    | ok ts =>
      simp only [transformManifest, hts, Except.ok.injEq, Option.some.injEq] at ht
      rw [← ht, hm]
      rfl
  · intro t ht
    simp [renderFps, jsOrQ, ht]

theorem C9_amended_witness :
    (transformManifest (some c9Manifest) = .ok
      (some { meta := c9Meta
              scenes := [{ id := "scene_0", start := 0, duration := 5
                           narration := { text := "Hi", audioUrl := none }
                           layout := "centered", components := [] }] }))
    ∧ ({ meta := c9Meta
         scenes := [{ id := "scene_0", start := 0, duration := 5
                      narration := { text := "Hi", audioUrl := none }
                      layout := "centered", components := [] }] } : Manifest).meta = c9Meta := by
  refine ⟨rfl, ?_⟩
  exact C9_amended.2.1 c9Manifest c9Meta _ rfl rfl

/-- C5: whenever the bundle and render succeed but the video upload fails —
either by an in-band upload error or a thrown exception — the job still
terminates with status `completed` and the `videoUrl` is the locally-served
fallback built from the configured public host and the job id; the job is
never marked `failed` because of an upload failure. -/
theorem C5_upload_failure_completed (jobId : String) (m : Manifest) (env : Env)
    (hb : env.bundleOk = true) (hr : env.renderOk = true)
    (hu : env.upload = .errReturned ∨ env.upload = .throws) :
    (orchestrate jobId m env).status = "completed"
    ∧ (orchestrate jobId m env).videoUrl = some (fallbackVideoUrl env jobId) := by
  rcases hu with hu | hu <;> simp [orchestrate, hb, hr, hu]

theorem C5_witness :
    (orchestrate "vid1" c5Manifest c5Env).status = "completed"
    ∧ (orchestrate "vid1" c5Manifest c5Env).videoUrl
        = some "https://host.example/videos/vid1.mp4" := by
  have h := C5_upload_failure_completed "vid1" c5Manifest c5Env rfl rfl (Or.inl rfl)
  exact ⟨h.1, by rw [h.2]; rfl⟩

/-- C1: at the failing input — one scene whose audio is synthesized to a
local file but whose object-store upload then fails — the cleanup scope runs
(the local video is deleted and no remote audio object remains), yet the
local temporary audio file survives the job: it was written to disk before
the upload but is only tracked for cleanup after a successful upload, so a
job-scoped temporary resource outlives the orchestration. -/
theorem C1_unuploaded_audio_survives_cleanup :
    (orchestrate "job1" c1Manifest c1Env).finalState.localAudio
      = [audioFileName "job1" 0]
    ∧ (orchestrate "job1" c1Manifest c1Env).finalState.localVideo = false
    ∧ (orchestrate "job1" c1Manifest c1Env).finalState.remoteAudio = []
    ∧ (orchestrate "job1" c1Manifest c1Env).status = "completed" := by
  refine ⟨?_, rfl, rfl, rfl⟩
  decide

lemma sceneStep_fst (jobId : String) (i : ℕ) (sc : Scene) (out : SynthOutcome)
    (st : ResState) : (sceneStep jobId i sc out st).1 = sceneResult sc out := by
  cases hg : guardSynth sc <;> cases out <;> simp [sceneStep, sceneResult, hg]

lemma sceneResult_of_failure (sc : Scene) (out : SynthOutcome)
    (h : isSynthFailure out = true) : sceneResult sc out = sc := by
  cases out with
  | ok u => cases h
  | requestThrows => cases hg : guardSynth sc <;> simp [sceneResult, hg]
  | noStream => cases hg : guardSynth sc <;> simp [sceneResult, hg]
  | streamWriteThrows => cases hg : guardSynth sc <;> simp [sceneResult, hg]
  | uploadFails => cases hg : guardSynth sc <;> simp [sceneResult, hg]

lemma runScenes_fst_getElem (jobId : String) (synth : ℕ → SynthOutcome) :
    ∀ (l : List Scene) (i : ℕ) (st : ResState) (j : ℕ),
      (runScenes jobId synth i l st).1[j]?
        = (l[j]?).map (fun sc => sceneResult sc (synth (i + j))) := by
  intro l
  induction l with
  | nil =>
    intro i st j
    simp [runScenes]
  | cons s rest ih =>
    intro i st j
    cases j with
    | zero => simp [runScenes, sceneStep_fst]
    | succ j' =>
      have := ih (i + 1) (sceneStep jobId i s (synth i) st).2 j'
      simp only [runScenes, List.getElem?_cons_succ, this]
      have harith : i + 1 + j' = i + (j' + 1) := by omega
      rw [harith]

lemma orchestrate_scenes (jobId : String) (m : Manifest) (env : Env)
    (hb : env.bundleOk = true) :
    (orchestrate jobId m env).renderCalled = true
    ∧ ∀ j, (orchestrate jobId m env).scenes[j]?
        = (m.scenes[j]?).map (fun sc => sceneResult sc (env.synth j)) := by
  cases hr : env.renderOk with
  | false =>
    constructor
    · simp [orchestrate, hb, hr]
    · intro j
      simp only [orchestrate, hb, hr, if_true, if_false, Bool.false_eq_true]
      have := runScenes_fst_getElem jobId env.synth m.scenes 0 ResState.start j
      simpa using this
  | true =>
    constructor
    · simp [orchestrate, hb, hr]
    · intro j
      simp only [orchestrate, hb, hr, if_true]
      have := runScenes_fst_getElem jobId env.synth m.scenes 0 ResState.start j
      simpa using this

/-- C3: a failure synthesizing or uploading one scene's audio is absorbed in
the per-scene loop — the failed scene comes out unchanged (no audio URL),
any other scene whose synthesis succeeds receives its audio URL, and the job
still proceeds to the rendering stage. -/
theorem C3_scene_failure_nonfatal (jobId : String) (m : Manifest) (env : Env)
    (k j : ℕ) (sck scj : Scene) (url : String)
    (hb : env.bundleOk = true)
    (hfail : isSynthFailure (env.synth k) = true)
    (hk : m.scenes[k]? = some sck)
    (hj : m.scenes[j]? = some scj)
    (hok : env.synth j = .ok url)
    (hguard : guardSynth scj = true) :
    (orchestrate jobId m env).renderCalled = true
    ∧ (orchestrate jobId m env).scenes[k]? = some sck
    ∧ (orchestrate jobId m env).scenes[j]?
        = some { scj with narration := { scj.narration with audioUrl := some url } } := by
  obtain ⟨hrc, hsc⟩ := orchestrate_scenes jobId m env hb
  refine ⟨hrc, ?_, ?_⟩
  · rw [hsc k, hk]
    simp [sceneResult_of_failure sck (env.synth k) hfail]
  · rw [hsc j, hj, hok]
    simp [sceneResult, hguard]

theorem C3_witness :
    (orchestrate "job2" c3Manifest c3Env).renderCalled = true
    ∧ (orchestrate "job2" c3Manifest c3Env).scenes[0]? = some c3SceneA
    ∧ (orchestrate "job2" c3Manifest c3Env).scenes[1]?
        = some { c3SceneB with narration :=
            { c3SceneB.narration with audioUrl := some "https://cdn.example/s1.mp3" } } :=
  C3_scene_failure_nonfatal "job2" c3Manifest c3Env 0 1 c3SceneA c3SceneB
    "https://cdn.example/s1.mp3" rfl rfl rfl rfl rfl (by decide)

lemma jsRound_mono {q r : ℚ} (h : q ≤ r) : jsRound q ≤ jsRound r :=
  Int.floor_le_floor (by linarith)

lemma jsRound_nonneg {q : ℚ} (h : 0 ≤ q) : 0 ≤ jsRound q := by
  unfold jsRound
  exact Int.le_floor.mpr (by push_cast; linarith)

lemma jsRound_le {q : ℚ} {c : ℤ} (h : q ≤ (c : ℚ)) : jsRound q ≤ c := by
  unfold jsRound
  have hlt : ⌊q + 1 / 2⌋ < c + 1 := Int.floor_lt.mpr (by push_cast; linarith)
  omega

lemma audioProgress_lb (i n : ℕ) : (5 : ℤ) ≤ audioProgress i n := by
  unfold audioProgress
  have h0 : (0 : ℚ) ≤ (i : ℚ) / (n : ℚ) * 25 := by positivity
  have := jsRound_nonneg h0
  omega

lemma audioProgress_ub {i n : ℕ} (h : i < n) : audioProgress i n ≤ 30 := by
  unfold audioProgress
  have hn0 : 0 < n := by omega
  have hn : (0 : ℚ) < (n : ℚ) := by exact_mod_cast hn0
  have hdiv : (i : ℚ) / (n : ℚ) ≤ 1 :=
    div_le_one_of_le₀ (by exact_mod_cast h.le) hn.le
  have hle : (i : ℚ) / (n : ℚ) * 25 ≤ ((25 : ℤ) : ℚ) := by push_cast; linarith
  have := jsRound_le hle
  omega

lemma audioProgress_mono {i j : ℕ} (n : ℕ) (hij : i ≤ j) :
    audioProgress i n ≤ audioProgress j n := by
  unfold audioProgress
  have hle : (i : ℚ) / (n : ℚ) * 25 ≤ (j : ℚ) / (n : ℚ) * 25 := by
    rcases Nat.eq_zero_or_pos n with rfl | hn
    · simp
    · have hn' : (0 : ℚ) < (n : ℚ) := by exact_mod_cast hn
      have hij' : (i : ℚ) ≤ (j : ℚ) := by exact_mod_cast hij
      gcongr
  have := jsRound_mono hle
  omega

lemma renderProgress_lb {p : ℚ} (h : 0 ≤ p) : (30 : ℤ) ≤ renderProgress p := by
  unfold renderProgress
  have := jsRound_nonneg (by positivity : (0 : ℚ) ≤ p * 60)
  omega

lemma renderProgress_ub {p : ℚ} (h : p ≤ 1) : renderProgress p ≤ 90 := by
  unfold renderProgress
  have hle : p * 60 ≤ ((60 : ℤ) : ℚ) := by push_cast; linarith
  have := jsRound_le hle
  omega

lemma renderProgress_mono {p q : ℚ} (h : p ≤ q) :
    renderProgress p ≤ renderProgress q := by
  unfold renderProgress
  have := jsRound_mono (show p * 60 ≤ q * 60 by linarith)
  omega

/-- C2: assuming the render engine reports non-decreasing completion
fractions in `[0,1]`, the full sequence of progress values written to the
job store — the initial 5, the per-scene audio updates, the render-callback
updates, the upload 95 and the final 100 — is monotonically non-decreasing. -/
theorem C2_progress_monotone (b : Bool) (n : ℕ) (fracs : List ℚ)
    (hmono : List.Pairwise (· ≤ ·) fracs)
    (hbound : ∀ p ∈ fracs, 0 ≤ p ∧ p ≤ 1) :
    List.Chain' (· ≤ ·) (progressTrace b n fracs) := by
  apply List.Pairwise.chain'
  unfold progressTrace
  have haudio : ∀ x ∈ (List.range n).map (fun i => audioProgress i n),
      5 ≤ x ∧ x ≤ 30 := by
    intro x hx
    rcases List.mem_map.mp hx with ⟨i, hi, rfl⟩
    exact ⟨audioProgress_lb i n, audioProgress_ub (List.mem_range.mp hi)⟩
  have hrender : ∀ x ∈ fracs.map renderProgress, 30 ≤ x ∧ x ≤ 90 := by
    intro x hx
    rcases List.mem_map.mp hx with ⟨p, hp, rfl⟩
    exact ⟨renderProgress_lb (hbound p hp).1, renderProgress_ub (hbound p hp).2⟩
  have hA : List.Pairwise (· ≤ ·) (if b then ([5] : List ℤ) else []) := by
    cases b <;> simp
  have hB : List.Pairwise (· ≤ ·) ((List.range n).map (fun i => audioProgress i n)) := by
    rw [List.pairwise_map]
    exact (List.pairwise_lt_range n).imp (fun h => audioProgress_mono n h.le)
  have hC : List.Pairwise (· ≤ ·) (fracs.map renderProgress) := by
    rw [List.pairwise_map]
    exact hmono.imp (fun h => renderProgress_mono h)
  have hD : List.Pairwise (· ≤ ·) ([95, 100] : List ℤ) := by norm_num
  rw [List.pairwise_append]
  refine ⟨?_, hD, ?_⟩
  · rw [List.pairwise_append]
    refine ⟨?_, hC, ?_⟩
    · rw [List.pairwise_append]
      refine ⟨hA, hB, ?_⟩
      intro x hx y hy
      have hx5 : x = 5 := by
        cases b with
        | false => simp at hx
        | true => simpa using hx
      subst hx5
      have := (haudio y hy).1
      omega
    · intro x hx y hy
      have h30 := (hrender y hy).1
      rcases List.mem_append.mp hx with hx | hx
      · have hx5 : x = 5 := by
          cases b with
          | false => simp at hx
          | true => simpa using hx
        omega
      · have := (haudio x hx).2
        omega
  · intro x hx y hy
    have hy95 : (95 : ℤ) ≤ y := by
      rcases List.mem_pair.mp hy with rfl | rfl <;> omega
    rcases List.mem_append.mp hx with hx | hx
    · rcases List.mem_append.mp hx with hx | hx
      · have hx5 : x = 5 := by
          cases b with
          | false => simp at hx
          | true => simpa using hx
        omega
      · have := (haudio x hx).2
        omega
    · have := (hrender x hx).2
      omega

theorem C2_witness :
    List.Pairwise (· ≤ ·) ([1 / 2] : List ℚ)
    ∧ List.Chain' (· ≤ ·) (progressTrace true 2 [1 / 2]) :=
  ⟨by simp, C2_progress_monotone true 2 [1 / 2] (by simp) (by norm_num)⟩

end Lonie
